import Mathlib

/-!
Verification of the CoreAudio audio-output driver excerpt
(`src/audio/out/ao_coreaudio.c`) and the Windows console-relaunch helper
(`src/osdep/win32-console-wrapper.c`).

The driver code is embedded shallowly: each C function becomes a Lean
function over explicit state.  Calls into the OS (CoreAudio / Win32) and
into the ring buffer are additionally recorded in an event trace, so that
claims about which operations happen, with which arguments, and in which
order can be stated.  The ring buffer implementation (`core/mp_ring.c`) is
not part of the excerpt; it is modelled from the specification (spec.md
section 4.1).
-/

/-- Modelled from the spec: `core/mp_ring.{c,h}` is not part of the excerpt,
only its consumer is.  Per spec section 3/4.1 the ring buffer is a
fixed-capacity FIFO byte queue; we model the queued bytes abstractly as the
list of bytes currently buffered, oldest first, with the invariant
`buffered <= capacity` maintained by the operations. -/
structure mp_ring where
  capacity : Nat
  buf : List Nat
deriving DecidableEq, Repr

/-- Modelled from the spec: `create(capacity)` allocates an empty buffer of
the given capacity (spec section 4.1, `create`). -/
def mp_ring_new (capacity : Nat) : mp_ring :=
  { capacity := capacity, buf := [] }

/-- Modelled from the spec: `bufferedBytes()` is the number of currently
queued bytes (spec section 4.1). -/
def mp_ring_buffered (r : mp_ring) : Nat :=
  r.buf.length

/-- Modelled from the spec: `availableToWrite()` is the free capacity
(spec section 4.1). -/
def mp_ring_available (r : mp_ring) : Nat :=
  r.capacity - mp_ring_buffered r

/-- Modelled from the spec: `write(data, length)` enqueues
`min(length, freeSpace)` bytes from `data` and returns the count actually
written (spec section 4.1, `write`). -/
def mp_ring_write (r : mp_ring) (data : List Nat) (length : Nat) :
    mp_ring × Nat :=
  let n := min length (mp_ring_available r)
  ({ r with buf := r.buf ++ data.take n }, n)

/-- Modelled from the spec: `read(outBuffer, length)` dequeues
`min(length, bufferedBytes)` bytes into the front of `outBuffer`, leaves
the unfilled remainder of `outBuffer` untouched, and returns the count
actually read (spec section 4.1, `read`).  The result is the new ring, the
new contents of the destination memory, and the count. -/
def mp_ring_read (r : mp_ring) (dest : List Nat) (length : Nat) :
    mp_ring × List Nat × Nat :=
  let n := min length (mp_ring_buffered r)
  ({ r with buf := r.buf.drop n }, r.buf.take n ++ dest.drop n, n)

/-- Modelled from the spec: `drain(length)` is identical to `read` but
discards the bytes instead of copying them out (spec section 4.1,
`drain`). -/
def mp_ring_drain (r : mp_ring) (length : Nat) : mp_ring × Nat :=
  let n := min length (mp_ring_buffered r)
  ({ r with buf := r.buf.drop n }, n)

/-- Modelled from the spec: `reset()` logically empties the buffer without
reallocation (spec section 4.1, `reset`). -/
def mp_ring_reset (r : mp_ring) : mp_ring :=
  { r with buf := [] }

/-! ## CoreAudio driver data model (from `ao_coreaudio.c`) -/

/-- OSStatus result codes. -/
abbrev OSStatus := Int

/-- The CoreAudio success status. -/
def noErr : OSStatus := 0

/-- Driver control return codes, from the ao driver interface header
(not part of the excerpt; the exact numeric values are immaterial, they
only need to be the distinct codes the driver returns). -/
def CONTROL_TRUE : Int := 1

def CONTROL_OK : Int := 1

def CONTROL_FALSE : Int := 0

def CONTROL_UNKNOWN : Int := -1

def CONTROL_ERROR : Int := -2

/-- `struct priv` of `ao_coreaudio.c`, restricted to the fields the
embedded operations touch.  Device and stream identifiers and the saved
stream formats only flow into OS calls and are left abstract. -/
structure Priv where
  b_supports_digital : Bool
  b_digital : Bool
  b_muted : Bool
  b_stream_format_changed : Bool
  packetSize : Nat
  paused : Bool
  i_stream_index : Nat
  buffer : mp_ring
deriving DecidableEq, Repr

/-- A CoreAudio `AudioBuffer`: `mDataByteSize` is the byte-count field of
the struct, `mData` is the contents of the memory region its data pointer
points to. -/
structure AudioBuffer where
  mDataByteSize : Nat
  mData : List Nat
deriving DecidableEq, Repr

/-- A CoreAudio `AudioBufferList`. -/
structure AudioBufferList where
  mBuffers : List AudioBuffer
deriving DecidableEq, Repr

/-- Events recorded by the embedded driver operations: the ring buffer
operations with their byte-count arguments, ring creation with its size,
the OS start/stop primitives, and the registration of a render callback
(`kAudioUnitProperty_SetRenderCallback` for the analog path,
`AudioDeviceCreateIOProcID` for the digital path).  OS property get/set
calls touch neither the ring buffer nor callback registration and are not
recorded. -/
inductive Event where
  | ringRead (len : Nat)
  | ringWrite (len : Nat)
  | ringDrain (len : Nat)
  | ringReset
  | ringCreate (size : Nat)
  | osStop
  | osStart
  | registerCb
deriving DecidableEq, Repr

/-- Result of a render callback: the updated driver state, the (possibly
updated) caller-owned buffer list, the returned status, and the trace of
recorded events. -/
structure RenderResult where
  priv : Priv
  buffers : AudioBufferList
  status : OSStatus
  trace : List Event
deriving DecidableEq, Repr

/-- `render_cb_lpcm` (`ao_coreaudio.c` lines 90-102).  `buf` is a by-value
stack copy of `buffer_list->mBuffers[0]`; the bytes the ring read writes
through `buf.mData` land in the shared memory and are therefore visible in
the returned buffer list, while the assignment of the read count to
`buf.mDataByteSize` mutates only the local copy and is not propagated. -/
def render_cb_lpcm (p : Priv) (frames : Nat) (buffer_list : AudioBufferList) :
    RenderResult :=
  let requested := frames * p.packetSize
  let buf := buffer_list.mBuffers.headD ⟨0, []⟩
  let r := mp_ring_read p.buffer buf.mData requested
  { priv := { p with buffer := r.1 },
    buffers :=
      { mBuffers :=
          buffer_list.mBuffers.set 0 { buf with mData := r.2.1 } },
    status := noErr,
    trace := [Event.ringRead requested] }

/-- `render_cb_digital` (`ao_coreaudio.c` lines 104-120).  `buf` is a
by-value copy of `out_data->mBuffers[p->i_stream_index]`; `requested` is
that buffer's `mDataByteSize`.  When muted the driver drains, otherwise it
reads into the designated stream buffer. -/
def render_cb_digital (p : Priv) (out_data : AudioBufferList) :
    RenderResult :=
  let buf := out_data.mBuffers.getD p.i_stream_index ⟨0, []⟩
  let requested := buf.mDataByteSize
  if p.b_muted then
    let r := mp_ring_drain p.buffer requested
    { priv := { p with buffer := r.1 },
      buffers := out_data,
      status := noErr,
      trace := [Event.ringDrain requested] }
  else
    let r := mp_ring_read p.buffer buf.mData requested
    { priv := { p with buffer := r.1 },
      buffers :=
        { mBuffers :=
            out_data.mBuffers.set p.i_stream_index
              { buf with mData := r.2.1 } },
      status := noErr,
      trace := [Event.ringRead requested] }

/-- `audio_pause` (`ao_coreaudio.c` lines 902-920): stop the OS callback
(`AudioOutputUnitStop` in analog mode, `AudioDeviceStop` in digital mode;
both are recorded as the single stop primitive) and mark the session
paused. -/
def audio_pause (p : Priv) : Priv × List Event :=
  ({ p with paused := true }, [Event.osStop])

/-- `audio_resume` (`ao_coreaudio.c` lines 924-945): a no-op when not
paused; otherwise start the OS callback (`AudioOutputUnitStart` /
`AudioDeviceStart`) and clear the paused flag. -/
def audio_resume (p : Priv) : Priv × List Event :=
  if !p.paused then (p, [])
  else ({ p with paused := false }, [Event.osStart])

/-- `reset` (`ao_coreaudio.c` lines 810-815): `audio_pause` followed by
`mp_ring_reset` on the session's buffer. -/
def reset (p : Priv) : Priv × List Event :=
  let r := audio_pause p
  ({ r.1 with buffer := mp_ring_reset r.1.buffer },
   r.2 ++ [Event.ringReset])

/-- Environment for the digital stream-format-restore branch at the top of
`play`: the results of `AudioStreamSupportsDigital` and of
`AudioStreamChangeFormat` on the saved stream format. -/
structure FormatEnv where
  supportsDigital : Bool
  changeFormatOk : Bool
deriving DecidableEq, Repr

/-- The leading branch of `play` (`ao_coreaudio.c` lines 781-801): when in
digital mode and the stream format changed out-of-band, clear the flag and
try to restore the digital format; on a successful restore, `reset` is
called. -/
def play_stream_format_check (p : Priv) (env : FormatEnv) :
    Priv × List Event :=
  if p.b_digital && p.b_stream_format_changed then
    let p1 := { p with b_stream_format_changed := false }
    if env.supportsDigital then
      if env.changeFormatOk then reset p1
      else (p1, [])
    else (p1, [])
  else (p, [])

/-- Result of `play`: the updated driver state, the returned byte count,
and the trace of recorded events. -/
structure PlayResult where
  priv : Priv
  wrote : Nat
  trace : List Event
deriving DecidableEq, Repr

/-- `play` (`ao_coreaudio.c` lines 776-807): after the stream-format
check, write the submitted bytes into the ring buffer, call
`audio_resume`, and return the count the write returned. -/
def play (p : Priv) (env : FormatEnv) (output_samples : List Nat)
    (num_bytes : Nat) : PlayResult :=
  let pre := play_stream_format_check p env
  let w := mp_ring_write pre.1.buffer output_samples num_bytes
  let p2 := { pre.1 with buffer := w.1 }
  let r := audio_resume p2
  { priv := r.1, wrote := w.2,
    trace := pre.2 ++ [Event.ringWrite num_bytes] ++ r.2 }

/-- `get_space` (`ao_coreaudio.c` lines 819-823). -/
def get_space (p : Priv) : Nat :=
  mp_ring_available p.buffer

/-! ## The `control` operation -/

/-- The `ao_control_vol_t` volume pair.  The C fields are `float`; they
are modelled with exact rationals, which is faithful for the comparisons
and the scalings the driver performs. -/
structure AoControlVol where
  left : Rat
  right : Rat
deriving DecidableEq, Repr

/-- The two control commands `control` handles; every other command falls
through to `CONTROL_UNKNOWN`. -/
inductive AoControl where
  | getVolume
  | setVolume
  | other
deriving DecidableEq, Repr

/-- The hardware-volume world visible to `control`: the HAL output unit's
volume parameter and the success of the `AudioUnitGetParameter` /
`AudioUnitSetParameter` calls. -/
structure HalWorld where
  hwVol : Rat
  getParamOk : Bool
  setParamOk : Bool
deriving DecidableEq, Repr

/-- Result of `control`: updated driver state, updated hardware world,
the (possibly written) volume argument, and the return code. -/
structure ControlResult where
  priv : Priv
  hal : HalWorld
  arg : AoControlVol
  ret : Int
deriving DecidableEq, Repr

/-- `control` (`ao_coreaudio.c` lines 122-177); named `ao_control` here
because `control` is taken by the Lean core library.  In digital mode
`AOCONTROL_GET_VOLUME` reports 0 or 100 from the muted flag and
`AOCONTROL_SET_VOLUME` only toggles the muted flag (volume 0/0 means
mute); in analog mode the HAL output unit's volume parameter is read or
written, scaled by 100/4. -/
def ao_control (p : Priv) (hal : HalWorld) (cmd : AoControl)
    (arg : AoControlVol) : ControlResult :=
  match cmd with
  | AoControl.getVolume =>
    if p.b_digital then
      let vol : Rat := if p.b_muted then 0 else 100
      { priv := p, hal := hal, arg := { left := vol, right := vol },
        ret := CONTROL_TRUE }
    else
      if hal.getParamOk then
        let v := hal.hwVol * 100 / 4
        { priv := p, hal := hal, arg := { left := v, right := v },
          ret := CONTROL_TRUE }
      else
        { priv := p, hal := hal, arg := arg, ret := CONTROL_ERROR }
  | AoControl.setVolume =>
    if p.b_digital then
      { priv :=
          { p with b_muted := if arg.left = 0 ∧ arg.right = 0
                              then true else false },
        hal := hal, arg := arg, ret := CONTROL_TRUE }
    else
      let vol := (arg.left + arg.right) * 4 / 200
      if hal.setParamOk then
        { priv := p, hal := { hal with hwVol := vol }, arg := arg,
          ret := CONTROL_TRUE }
      else
        { priv := p, hal := hal, arg := arg, ret := CONTROL_ERROR }
  | AoControl.other =>
    { priv := p, hal := hal, arg := arg, ret := CONTROL_UNKNOWN }

/-! ## Session setup traces (`init` and `OpenSPDIF`) -/

/-- Modelled from the spec: `af_fmt_seconds_to_bytes` is not part of the
excerpt.  Per spec sections 4.1/6, `get_ring_size` (`ao_coreaudio.c` lines
84-88) sizes the buffer for 0.5 seconds at the stream's byte rate
(`sampleRate * bytesPerFrame`). -/
def get_ring_size (samplerate bytesPerFrame : Nat) : Nat :=
  samplerate * bytesPerFrame / 2

/-- Outcomes of the OS calls made by `OpenSPDIF` that steer its control
flow. -/
structure SpdifEnv where
  hogSetOk : Bool
  hasMixProp : Bool
  mixWriteable : Bool
  mixGetOk : Bool
  mixSetOk : Bool
  streamsOk : Bool
  foundStream : Bool
  changeFormatOk : Bool
  createIOProcOk : Bool
deriving DecidableEq, Repr

/-- Outcomes of the OS calls made by `init` that steer its control flow
(the digital-path outcomes are nested in `spdif`). -/
structure InitEnv where
  suboptOk : Bool
  deviceOptSet : Bool
  defaultDevOk : Bool
  devNameOk : Bool
  isAC3 : Bool
  deviceSupportsDigital : Bool
  chmapOk : Bool
  hogGetOk : Bool
  hogOtherOwner : Bool
  compFound : Bool
  compOpenOk : Bool
  unitInitOk : Bool
  setFormatOk : Bool
  chmapDefOk : Bool
  setRenderCbOk : Bool
  spdif : SpdifEnv
deriving DecidableEq, Repr

/-- The event trace of `OpenSPDIF` (`ao_coreaudio.c` lines 442-689) as a
function of its OS-call outcomes.  The error exits (`err_out`,
`err_out1`) perform only property reverts, which are not recorded events.
The mixing step fails when the device has the mixing property and the
final status of the get/set sequence is an error.  On the success path the
ring buffer is created, then `AudioDeviceCreateIOProcID` is attempted
(recorded as the registration), and on success `reset` runs. -/
def openSPDIF_trace (e : SpdifEnv) (samplerate bytesPerFrame : Nat) :
    List Event :=
  if !e.hogSetOk then []
  else if e.hasMixProp &&
          !(if e.mixGetOk && e.mixWriteable then e.mixSetOk
            else e.mixGetOk) then []
  else if !e.streamsOk then []
  else if !e.foundStream then []
  else if !e.changeFormatOk then []
  else
    Event.ringCreate (get_ring_size samplerate bytesPerFrame) ::
    Event.registerCb ::
    (if e.createIOProcOk then [Event.osStop, Event.ringReset] else [])

/-- The event trace of `init` (`ao_coreaudio.c` lines 224-437) as a
function of its OS-call outcomes, with the negotiated sample rate and
bytes-per-frame as parameters.  The digital probe branch hands off to
`OpenSPDIF`; the analog branch creates the ring buffer, registers the
render callback (`kAudioUnitProperty_SetRenderCallback`), and on success
runs `reset`. -/
def init_trace (e : InitEnv) (samplerate bytesPerFrame : Nat) :
    List Event :=
  if !e.suboptOk then []
  else if !e.deviceOptSet && !e.defaultDevOk then []
  else if !e.devNameOk then []
  else if !e.chmapOk then []
  else if e.isAC3 && e.deviceSupportsDigital then
    if e.hogGetOk && e.hogOtherOwner then []
    else openSPDIF_trace e.spdif samplerate bytesPerFrame
  else
    if !e.compFound then []
    else if !e.compOpenOk then []
    else if !e.unitInitOk then []
    else if !e.setFormatOk then []
    else if !e.chmapDefOk then []
    else
      Event.ringCreate (get_ring_size samplerate bytesPerFrame) ::
      Event.registerCb ::
      (if e.setRenderCbOk then [Event.osStop, Event.ringReset] else [])

/-- A trace is safe when every callback registration is preceded by a ring
creation: the accumulator records whether a `ringCreate` has already been
seen. -/
def okTrace : Bool → List Event → Bool
  | _, [] => true
  | _, Event.ringCreate _ :: es => okTrace true es
  | created, Event.registerCb :: es => created && okTrace created es
  | created, _ :: es => okTrace created es

/-- Every `ringCreate` event in the trace carries the given size. -/
def ringCreateSizesOk (n : Nat) : List Event → Bool
  | [] => true
  | Event.ringCreate s :: es => (s = n) && ringCreateSizesOk n es
  | _ :: es => ringCreateSizesOk n es

/-! ## Windows console-relaunch helper (`win32-console-wrapper.c`) -/

/-- A Win32 handle. -/
abbrev Handle := Nat

/-- The `STARTF_USESTDHANDLES` flag of `STARTUPINFO.dwFlags`. -/
def STARTF_USESTDHANDLES : Nat := 0x100

/-- The `INFINITE` timeout of `WaitForSingleObject`. -/
def INFINITE : Nat := 0xFFFFFFFF

/-- The fields of `STARTUPINFO` the wrapper sets (the struct is
zero-filled first; `cb` is a byte-size layout detail and is not
modelled). -/
structure StartupInfo where
  dwFlags : Nat
  hStdInput : Handle
  hStdOutput : Handle
  hStdError : Handle
deriving DecidableEq, Repr

/-- The Win32 world `cr_runproc` runs against: the process's standard
handles as returned by `GetStdHandle`, whether `CreateProcessW` succeeds,
and on success the child process/thread handles it returns. -/
structure Win32Env where
  stdIn : Handle
  stdOut : Handle
  stdErr : Handle
  createOk : Bool
  childProcess : Handle
  childThread : Handle
deriving DecidableEq, Repr

/-- Win32 calls recorded by the wrapper: process creation with its
`bInheritHandles` argument and `STARTUPINFO`, waiting on a handle with a
timeout, closing a handle, and the error-print helper `cr_perror`. -/
inductive WinEvent where
  | createProcess (inherit : Bool) (si : StartupInfo)
  | waitForSingleObject (h : Handle) (timeout : Nat)
  | closeHandle (h : Handle)
  | perror
deriving DecidableEq, Repr

/-- The `STARTUPINFO` that `cr_runproc` builds
(`win32-console-wrapper.c` lines 42-47): zero-filled, the three standard
handles fetched via `GetStdHandle`, and `dwFlags |= STARTF_USESTDHANDLES`. -/
def cr_startupinfo (env : Win32Env) : StartupInfo :=
  { dwFlags := 0 ||| STARTF_USESTDHANDLES,
    hStdInput := env.stdIn,
    hStdOutput := env.stdOut,
    hStdError := env.stdErr }

/-- `cr_runproc` (`win32-console-wrapper.c` lines 37-60): call
`CreateProcessW(name, cmdline, NULL, NULL, TRUE, 0, NULL, NULL, &si, &pi)`
with the startup info above; on failure print the error, on success wait
for the child process to exit and close both returned handles. -/
def cr_runproc (env : Win32Env) : List WinEvent :=
  WinEvent.createProcess true (cr_startupinfo env) ::
  (if env.createOk then
    [WinEvent.waitForSingleObject env.childProcess INFINITE,
     WinEvent.closeHandle env.childProcess,
     WinEvent.closeHandle env.childThread]
   else [WinEvent.perror])

/-- `wmain` (`win32-console-wrapper.c` lines 62-83): after assembling the
target path (own module path with its extension replaced by `exe`) and the
forwarded command line — pure wide-string manipulation with no recorded
Win32 side effects — it unconditionally calls `cr_runproc` and returns 0.
Its event trace is therefore that of `cr_runproc`. -/
def wmain_trace (env : Win32Env) : List WinEvent :=
  cr_runproc env

/-! ## Helper lemmas -/

/-- A ring read never touches the part of the destination beyond the bytes
it actually delivered. -/
theorem mp_ring_read_tail_untouched (r : mp_ring) (dest : List Nat)
    (len : Nat) :
    ((mp_ring_read r dest len).2.1).drop (mp_ring_read r dest len).2.2 =
      dest.drop (mp_ring_read r dest len).2.2 := by
  have h : (r.buf.take (min len (mp_ring_buffered r))).length
      = min len (mp_ring_buffered r) := by
    simp [mp_ring_buffered]
  exact List.drop_left' h

/-! ## Claim theorems -/

/-- C1: for every invocation of the analog (LPCM) render callback
requesting `frames` frames, the driver performs exactly one ring-buffer
operation, a single `mp_ring_read` of `frames * packetSize` bytes into the
OS-supplied destination buffer `buffer_list->mBuffers[0]`. -/
theorem render_cb_lpcm_single_full_read (p : Priv) (frames : Nat)
    (bl : AudioBufferList) :
    (render_cb_lpcm p frames bl).trace =
      [Event.ringRead (frames * p.packetSize)] ∧
    (render_cb_lpcm p frames bl).priv =
      { p with
        buffer := (mp_ring_read p.buffer (bl.mBuffers.headD ⟨0, []⟩).mData
          (frames * p.packetSize)).1 } ∧
    (render_cb_lpcm p frames bl).buffers =
      { mBuffers := bl.mBuffers.set 0
          { bl.mBuffers.headD ⟨0, []⟩ with
            mData := (mp_ring_read p.buffer
              (bl.mBuffers.headD ⟨0, []⟩).mData
              (frames * p.packetSize)).2.1 } } :=
  ⟨rfl, rfl, rfl⟩

/-- C2 (counterexample to the claim as stated): at a concrete input where
the ring buffer holds 3 bytes and the designated stream buffer requests
only 2, the queue advances by 2, which is neither the 3 buffered bytes nor
the free space — so the queue does not, in general, advance "by the number
of bytes the ring buffer had available". -/
theorem render_cb_digital_advance_cex :
    mp_ring_buffered
        (render_cb_digital
          { b_supports_digital := true, b_digital := true, b_muted := true,
            b_stream_format_changed := false, packetSize := 4,
            paused := false, i_stream_index := 0,
            buffer := { capacity := 10, buf := [1, 2, 3] } }
          { mBuffers := [{ mDataByteSize := 2, mData := [9, 9] }] }).priv.buffer
      = 1 ∧
    (3 : Nat) - 1 ≠ 3 ∧
    mp_ring_buffered
      { capacity := 10, buf := [1, 2, 3] } = 3 ∧
    mp_ring_available
      { capacity := 10, buf := [1, 2, 3] } = 7 := by
  decide

/-- C2 (amended): for every invocation of the digital render callback, if
muted the driver drains the ring buffer by the designated stream buffer's
requested byte count, otherwise it reads that byte count into that stream
buffer; in both cases the queue advances by the minimum of the requested
byte count and the number of bytes the ring buffer had buffered. -/
theorem render_cb_digital_drain_or_read (p : Priv)
    (out_data : AudioBufferList) :
    (render_cb_digital p out_data).trace =
      [if p.b_muted then
         Event.ringDrain
           (out_data.mBuffers.getD p.i_stream_index ⟨0, []⟩).mDataByteSize
       else
         Event.ringRead
           (out_data.mBuffers.getD p.i_stream_index ⟨0, []⟩).mDataByteSize] ∧
    (render_cb_digital p out_data).buffers =
      (if p.b_muted then out_data else
        { mBuffers := out_data.mBuffers.set p.i_stream_index
            { out_data.mBuffers.getD p.i_stream_index ⟨0, []⟩ with
              mData := (mp_ring_read p.buffer
                (out_data.mBuffers.getD p.i_stream_index ⟨0, []⟩).mData
                (out_data.mBuffers.getD p.i_stream_index
                  ⟨0, []⟩).mDataByteSize).2.1 } }) ∧
    mp_ring_buffered p.buffer =
      mp_ring_buffered (render_cb_digital p out_data).priv.buffer +
        min (out_data.mBuffers.getD p.i_stream_index ⟨0, []⟩).mDataByteSize
          (mp_ring_buffered p.buffer) := by
  cases h : p.b_muted <;>
    simp [render_cb_digital, h, mp_ring_drain, mp_ring_read,
          mp_ring_buffered]

/-- C3: `play` forwards the submitted bytes to the ring buffer's write
operation (after the digital stream-format check, which may itself reset
the session), then ensures the OS callback is active — emitting the OS
start primitive exactly when the session was paused and leaving it
unpaused — and returns exactly the byte count the write returned. -/
theorem play_forwards_write_and_resumes (p : Priv) (env : FormatEnv)
    (output_samples : List Nat) (num_bytes : Nat) :
    (play p env output_samples num_bytes).wrote =
      (mp_ring_write (play_stream_format_check p env).1.buffer
        output_samples num_bytes).2 ∧
    (play p env output_samples num_bytes).priv.buffer =
      (mp_ring_write (play_stream_format_check p env).1.buffer
        output_samples num_bytes).1 ∧
    (play p env output_samples num_bytes).priv.paused = false ∧
    (play p env output_samples num_bytes).trace =
      (play_stream_format_check p env).2 ++ [Event.ringWrite num_bytes] ++
        (if (play_stream_format_check p env).1.paused then [Event.osStart]
         else []) := by
  cases h : (play_stream_format_check p env).1.paused <;>
    simp [play, audio_resume, h]

/-- C4: the driver's flush/reset operation first performs `audio_pause`
(the OS stop primitive, leaving the session paused) and then resets the
ring buffer so it is logically empty; its trace shows no other buffer
operation. -/
theorem reset_pauses_then_resets (p : Priv) :
    reset p =
      ({ p with paused := true, buffer := mp_ring_reset p.buffer },
       [Event.osStop, Event.ringReset]) ∧
    mp_ring_buffered (reset p).1.buffer = 0 :=
  ⟨rfl, rfl⟩

/-- C5: when the analog render callback's read returns fewer bytes than
the `frames * packetSize` it requested (underrun), the unfilled remainder
of the OS destination buffer keeps exactly its previous contents — the
driver does not zero-pad it before returning to the OS. -/
theorem render_cb_lpcm_short_read_leaves_tail (p : Priv) (frames : Nat)
    (bl : AudioBufferList)
    (h : mp_ring_buffered p.buffer < frames * p.packetSize) :
    (mp_ring_read p.buffer (bl.mBuffers.headD ⟨0, []⟩).mData
        (frames * p.packetSize)).2.2 < frames * p.packetSize ∧
    ((render_cb_lpcm p frames bl).buffers.mBuffers.headD ⟨0, []⟩).mData.drop
        (mp_ring_read p.buffer (bl.mBuffers.headD ⟨0, []⟩).mData
          (frames * p.packetSize)).2.2 =
      (bl.mBuffers.headD ⟨0, []⟩).mData.drop
        (mp_ring_read p.buffer (bl.mBuffers.headD ⟨0, []⟩).mData
          (frames * p.packetSize)).2.2 := by
  simp only [mp_ring_buffered] at h
  constructor
  · simp [mp_ring_read, mp_ring_buffered]
    exact h
  · cases hbl : bl.mBuffers with
    | nil => simp [render_cb_lpcm, hbl]
    | cons a l =>
      have ht := mp_ring_read_tail_untouched p.buffer a.mData
        (frames * p.packetSize)
      simp [render_cb_lpcm, hbl] at ht ⊢
      exact ht

/-- Concrete analog-underrun scenario: one byte buffered, two requested.
Used by the witness of the short-read theorem. -/
def lpcmUnderrunPriv : Priv :=
  { b_supports_digital := false, b_digital := false, b_muted := false,
    b_stream_format_changed := false, packetSize := 2, paused := false,
    i_stream_index := 0, buffer := { capacity := 4, buf := [5] } }

/-- The OS destination buffer for the concrete underrun scenario. -/
def lpcmUnderrunList : AudioBufferList :=
  { mBuffers := [{ mDataByteSize := 4, mData := [7, 7, 7, 7] }] }

/-- C5 witness: at the concrete underrun scenario the read is short and
the destination's tail keeps its previous contents. -/
theorem render_cb_lpcm_short_read_witness :
    mp_ring_buffered lpcmUnderrunPriv.buffer <
        1 * lpcmUnderrunPriv.packetSize ∧
    ((mp_ring_read lpcmUnderrunPriv.buffer
        (lpcmUnderrunList.mBuffers.headD ⟨0, []⟩).mData
        (1 * lpcmUnderrunPriv.packetSize)).2.2 <
      1 * lpcmUnderrunPriv.packetSize ∧
    ((render_cb_lpcm lpcmUnderrunPriv 1
        lpcmUnderrunList).buffers.mBuffers.headD ⟨0, []⟩).mData.drop
        (mp_ring_read lpcmUnderrunPriv.buffer
          (lpcmUnderrunList.mBuffers.headD ⟨0, []⟩).mData
          (1 * lpcmUnderrunPriv.packetSize)).2.2 =
      (lpcmUnderrunList.mBuffers.headD ⟨0, []⟩).mData.drop
        (mp_ring_read lpcmUnderrunPriv.buffer
          (lpcmUnderrunList.mBuffers.headD ⟨0, []⟩).mData
          (1 * lpcmUnderrunPriv.packetSize)).2.2) :=
  ⟨by decide,
   render_cb_lpcm_short_read_leaves_tail lpcmUnderrunPriv 1
     lpcmUnderrunList (by decide)⟩

/-- C6: the `mDataByteSize` field of the caller's
`buffer_list->mBuffers[0]` is unchanged by the analog render callback —
the read count is assigned only to the callback's local stack copy of the
`AudioBuffer` struct and never propagates back through the buffer list. -/
theorem render_cb_lpcm_preserves_mDataByteSize (p : Priv) (frames : Nat)
    (bl : AudioBufferList) :
    ((render_cb_lpcm p frames bl).buffers.mBuffers.getD 0
        ⟨0, []⟩).mDataByteSize =
      (bl.mBuffers.getD 0 ⟨0, []⟩).mDataByteSize := by
  cases hbl : bl.mBuffers with
  | nil => simp [render_cb_lpcm, hbl]
  | cons a l => simp [render_cb_lpcm, hbl]

set_option maxHeartbeats 1000000 in
/-- Every run of `OpenSPDIF` either stops before any recorded event or
creates the ring buffer and then attempts the callback registration. -/
theorem openSPDIF_trace_shape (e : SpdifEnv) (samplerate bytesPerFrame : Nat) :
    openSPDIF_trace e samplerate bytesPerFrame = [] ∨
    openSPDIF_trace e samplerate bytesPerFrame =
      Event.ringCreate (get_ring_size samplerate bytesPerFrame) ::
        Event.registerCb ::
        (if e.createIOProcOk then [Event.osStop, Event.ringReset]
         else []) := by
  unfold openSPDIF_trace
  split_ifs <;> first
    | exact Or.inl rfl
    | exact Or.inr rfl

set_option maxHeartbeats 1000000 in
/-- Every run of `init` either stops before any recorded event, hands off
to `OpenSPDIF`, or creates the ring buffer and then attempts the callback
registration. -/
theorem init_trace_shape (e : InitEnv) (samplerate bytesPerFrame : Nat) :
    init_trace e samplerate bytesPerFrame = [] ∨
    init_trace e samplerate bytesPerFrame =
      openSPDIF_trace e.spdif samplerate bytesPerFrame ∨
    init_trace e samplerate bytesPerFrame =
      Event.ringCreate (get_ring_size samplerate bytesPerFrame) ::
        Event.registerCb ::
        (if e.setRenderCbOk then [Event.osStop, Event.ringReset]
         else []) := by
  unfold init_trace
  split_ifs <;> first
    | exact Or.inl rfl
    | exact Or.inr (Or.inl rfl)
    | exact Or.inr (Or.inr rfl)

/-- C7: in both session-setup paths (analog `init` and digital
`OpenSPDIF`), whenever the render callback registration happens it is
preceded in the event trace by the creation of a ring buffer, and every
ring buffer created carries the size computed from the negotiated byte
rate (0.5 seconds at `samplerate * bytesPerFrame`). -/
theorem init_ring_created_before_callback (e : InitEnv)
    (samplerate bytesPerFrame : Nat) :
    okTrace false (init_trace e samplerate bytesPerFrame) = true ∧
    ringCreateSizesOk (get_ring_size samplerate bytesPerFrame)
      (init_trace e samplerate bytesPerFrame) = true := by
  rcases init_trace_shape e samplerate bytesPerFrame with h | h | h
  · rw [h]; exact ⟨rfl, rfl⟩
  · rw [h]
    rcases openSPDIF_trace_shape e.spdif samplerate bytesPerFrame
      with h2 | h2 <;> rw [h2]
    · exact ⟨rfl, rfl⟩
    · cases hc : e.spdif.createIOProcOk <;>
        simp [hc, okTrace, ringCreateSizesOk]
  · rw [h]
    cases hc : e.setRenderCbOk <;> simp [hc, okTrace, ringCreateSizesOk]

/-- C8: both render callbacks return `noErr` on every invocation,
whatever the state of the ring buffer. -/
theorem render_callbacks_return_noErr (p1 : Priv) (frames : Nat)
    (bl1 : AudioBufferList) (p2 : Priv) (bl2 : AudioBufferList) :
    (render_cb_lpcm p1 frames bl1).status = noErr ∧
    (render_cb_digital p2 bl2).status = noErr := by
  refine ⟨rfl, ?_⟩
  cases h : p2.b_muted <;> simp [render_cb_digital, h]

/-- C9: `AOCONTROL_SET_VOLUME` in digital mode sets the muted flag exactly
when both requested channel volumes are 0 and clears it otherwise, leaves
the hardware volume world untouched, leaves the argument untouched, and
returns `CONTROL_TRUE`. -/
theorem control_set_volume_digital (p : Priv) (hal : HalWorld)
    (arg : AoControlVol) (h : p.b_digital = true) :
    ao_control p hal AoControl.setVolume arg =
      { priv := { p with b_muted := if arg.left = 0 ∧ arg.right = 0
                                    then true else false },
        hal := hal, arg := arg, ret := CONTROL_TRUE } := by
  simp [ao_control, h]

/-- Concrete digital-mode driver state used by the witness of the
set-volume theorem. -/
def digitalPriv : Priv :=
  { b_supports_digital := true, b_digital := true, b_muted := false,
    b_stream_format_changed := false, packetSize := 6144, paused := false,
    i_stream_index := 0, buffer := { capacity := 8, buf := [1, 2] } }

/-- A concrete hardware-volume world for the set-volume witness. -/
def digitalHal : HalWorld :=
  { hwVol := 2, getParamOk := true, setParamOk := true }

/-- C9 witness: setting volume 0/0 on the concrete digital session mutes
it, touches nothing else, and returns `CONTROL_TRUE`. -/
theorem control_set_volume_digital_witness :
    digitalPriv.b_digital = true ∧
    ao_control digitalPriv digitalHal AoControl.setVolume
        { left := 0, right := 0 } =
      { priv := { digitalPriv with
          b_muted := if (0 : Rat) = 0 ∧ (0 : Rat) = 0 then true
                     else false },
        hal := digitalHal, arg := { left := 0, right := 0 },
        ret := CONTROL_TRUE } :=
  ⟨rfl,
   control_set_volume_digital digitalPriv digitalHal
     { left := 0, right := 0 } rfl⟩

/-- C10: the console-relaunch helper calls `CreateProcessW` with handle
inheritance enabled and a `STARTUPINFO` whose `dwFlags` contains
`STARTF_USESTDHANDLES` and whose three standard-handle fields are the
wrapper's own standard handles; on success it waits (with `INFINITE`
timeout) for the child process to exit before returning, and on failure it
prints the error instead. -/
theorem cr_runproc_inherits_handles_and_waits (env : Win32Env) :
    cr_runproc env =
      WinEvent.createProcess true (cr_startupinfo env) ::
        (if env.createOk then
          [WinEvent.waitForSingleObject env.childProcess INFINITE,
           WinEvent.closeHandle env.childProcess,
           WinEvent.closeHandle env.childThread]
         else [WinEvent.perror]) ∧
    (cr_startupinfo env).dwFlags &&& STARTF_USESTDHANDLES =
      STARTF_USESTDHANDLES ∧
    (cr_startupinfo env).hStdInput = env.stdIn ∧
    (cr_startupinfo env).hStdOutput = env.stdOut ∧
    (cr_startupinfo env).hStdError = env.stdErr ∧
    (if env.createOk then
       WinEvent.waitForSingleObject env.childProcess INFINITE ∈
         cr_runproc env
     else WinEvent.perror ∈ cr_runproc env) := by
  refine ⟨rfl, ?_, rfl, rfl, rfl, ?_⟩
  · show (0 ||| STARTF_USESTDHANDLES) &&& STARTF_USESTDHANDLES =
      STARTF_USESTDHANDLES
    decide
  · cases h : env.createOk <;> simp [cr_runproc, h]
